import Mathlib

/-
  Shallow embedding of the mars-pulsar parser and tree-walking interpreter
  (src/parser.rs, src/interpreter.rs).

  Modelling conventions:
  - Rust panics are modelled as `Except.error` with a structured error kind;
    each constructor's doc comment names the panic site and message.
  - `HashMap` (the scope, and the `(index, name) -> _` parameter maps) is
    modelled as an association list; `scope_insert` prepends, and
    `scope_lookup` returns the most recent binding, which reproduces
    `HashMap::insert`/`get` as observed through lookup.  Iteration order over
    a parameter map is modelled as list (insertion) order.
  - Rust `i64` is modelled as `Int` with the arithmetic explicitly reduced
    into the i64 range: `wrap64` is the two's-complement reduction
    `(x + 2^63) % 2^64 - 2^63`, applied to every `+`, `-`, `*` result
    (release-build Rust wraps there; debug builds panic instead, and the
    wrapped value is what deployed builds compute).  `i64` division truncates
    toward zero (`Int.tdiv`), panics on a zero divisor, and panics — in every
    build mode — on the one overflowing quotient `i64::MIN / -1`.
  - The iterator-based parser is modelled as functions from `List Token` to
    `Except ParseErr (result × List Token)`; mutual recursion is made total
    with an explicit fuel argument (the Rust recursion consumes tokens, so any
    fuel larger than the token count behaves identically; `Parser.parse`
    supplies such a fuel).
  - The builtin registry (builtins.rs) and the lexer (lexer.rs) are external
    collaborators, absent from the repository core; the interpreter is
    parameterized by the registry's dispatch function, and `Token` and its
    display are reconstructed from the spec's data contract and the parser's
    usage of them.
-/

namespace MarsPulsar

/-- Token alphabet. Modelled from the spec (section 3) and from the variants
the parser and interpreter pattern-match on; the `Token` enum itself lives in
the external lexer, which is not part of this repository core. -/
inductive Token where
  | num (n : Int)
  | string (s : String)
  | bool (b : Bool)
  | identifier (name : String)
  | operator (op : String)
  | type (name : String)
  | setVal
  | lparen
  | rparen
  | lbrace
  | rbrace
  | comma
  | semicolon
  | ret
  | returnType
  | func
  | error
  deriving DecidableEq

/-- Operator, parser.rs lines 10-19. -/
inductive Operator where
  | add
  | sub
  | mul
  | div
  | eq
  | neq
  | setVal
  deriving DecidableEq

/-- Operator::from_str, parser.rs lines 21-34.  The Rust function panics with
"Unknown operator" on any other symbol; `none` models that panic, raised at
the use site. -/
def Operator.from_str (s : String) : Option Operator :=
  if s = "+" then some .add
  else if s = "-" then some .sub
  else if s = "*" then some .mul
  else if s = "/" then some .div
  else if s = "==" then some .eq
  else if s = "!=" then some .neq
  else if s = ":=" then some .setVal
  else none

/-- Display for Operator, parser.rs lines 36-48.  Note the Rust impl writes
`Eq` as "=" (a single equals sign). -/
def Operator.display : Operator → String
  | .add => "+"
  | .sub => "-"
  | .mul => "*"
  | .div => "/"
  | .eq => "="
  | .neq => "!="
  | .setVal => ":="

/-- Expr AST, parser.rs lines 50-71.  `FnDef.args` is a
`HashMap<(usize, String), Expr>`, modelled as an association list in
insertion order. -/
inductive Expr where
  | token (t : Token)
  | binaryExpr (op : Operator) (lhs rhs : Expr)
  | fnCall (name : String) (args : List Expr)
  | fnDef (name : String) (args : List ((Nat × String) × Expr))
      (body : List Expr) (returnType : String)
  | ret (inner : Expr)

/-- ValueType, interpreter.rs lines 32-39. -/
inductive ValueType where
  | int
  | string
  | bool
  | fn
  | nothing
  deriving DecidableEq

/-- UserFn, interpreter.rs lines 53-59; `args` is
`HashMap<(usize, String), ValueType>`, modelled as an association list. -/
structure UserFn where
  name : String
  args : List ((Nat × String) × ValueType)
  body : List Expr
  returnType : ValueType

mutual
/-- Value, interpreter.rs lines 23-30. -/
inductive Value where
  | int (i : Int)
  | string (s : String)
  | bool (b : Bool)
  | fn (f : FnType)
  | nothing

/-- FnType, interpreter.rs lines 41-45. -/
inductive FnType where
  | builtin (b : BuiltinFn)
  | user (u : UserFn)

/-- BuiltinFn, interpreter.rs lines 47-51 (`return_type` is a boxed Value). -/
inductive BuiltinFn where
  | mk (name : String) (returnType : Value)
end

/-- The scope: `HashMap<String, Value>` as an association list (the Rust
declaration stores `&Value`, which does not borrow-check; spec section 9
prescribes storing owned values, which this model does). -/
abbrev Scope := List (String × Value)

/-- HashMap::get as observed through the scope. -/
def scope_lookup (scope : Scope) (name : String) : Option Value :=
  match scope with
  | [] => none
  | (k, v) :: rest => if k = name then some v else scope_lookup rest name

/-- HashMap::insert: prepending, so that `scope_lookup` sees the newest
binding (last write wins). -/
def scope_insert (scope : Scope) (name : String) (v : Value) : Scope :=
  (name, v) :: scope

/-- Parse-time failures; each constructor is one `panic!` site in parser.rs. -/
inductive ParseErr where
  /-- panic "Expected semicolon" (parser.rs line 230). -/
  | expectedSemicolon
  /-- panic "Expected operator" (parser.rs line 213, integer-literal arm). -/
  | expectedOperator
  /-- panic "Unknown operator" (Operator::from_str, parser.rs line 31). -/
  | unknownOperator
  /-- panic "Expected identifier" (parser.rs lines 261 and 302). -/
  | expectedIdentifier
  /-- panic "Expected type" (parser.rs lines 264 and 281). -/
  | expectedType
  /-- panic "Expected comma, or ')'" (parser.rs line 271). -/
  | expectedCommaOrRParen
  /-- panic "Expect comma, or ')'" (parser.rs line 339, call-argument loop). -/
  | expectCommaOrRParenInCall
  /-- panic "Expected brace" (parser.rs line 284). -/
  | expectedBrace
  /-- panic "Expected a return statement or brace" (parser.rs line 288). -/
  | expectedReturnOrBrace
  /-- panic "Expected '(', got ..." (parser.rs line 300). -/
  | expectedLParen
  /-- fuel exhaustion of the model; unreachable for the fuel supplied by
  `Parser.parse`, and no claim depends on it. -/
  | outOfFuel
  deriving DecidableEq

/-- Evaluation-time failures; each constructor is one panic site in
interpreter.rs (or a Rust-language panic it triggers). -/
inductive RuntimeErr where
  /-- panic "Cannot add non-numeric values" (interpreter.rs line 152). -/
  | cannotAdd
  /-- panic "Cannot subtract non-numeric values" (interpreter.rs line 164). -/
  | cannotSubtract
  /-- panic "Cannot multiply non-numeric values" (interpreter.rs line 176). -/
  | cannotMultiply
  /-- panic "Cannot divide non-numeric values" (interpreter.rs line 188). -/
  | cannotDivide
  /-- Rust panic "attempt to divide by zero" from `left / right`
  (interpreter.rs line 187). -/
  | divisionByZero
  /-- Rust panic "attempt to divide with overflow" from `left / right` at
  `i64::MIN / -1` (interpreter.rs line 187); unlike the wrapping of the
  other arithmetic operators, this panic occurs in every build mode. -/
  | divisionOverflow
  /-- panic "Cannot compare non-numeric values" (interpreter.rs lines 202, 216). -/
  | cannotCompare
  /-- panic "Undefined variable: ..." (interpreter.rs line 227). -/
  | undefinedVariable (name : String)
  /-- panic "Undefined function: ..." (interpreter.rs line 117). -/
  | undefinedFunction (name : String)
  /-- panic "Not a function" (interpreter.rs line 114). -/
  | notAFunction
  /-- Rust panic "index out of bounds ..." from `passed_args[*index]`
  (interpreter.rs line 109). -/
  | indexOutOfBounds
  /-- panic "Invalid type name: ..." (interpreter.rs line 127). -/
  | invalidTypeName (name : String)
  /-- panic from `unreachable!("This should always a be a type token")`
  (interpreter.rs line 254). -/
  | notATypeToken
  /-- panic from `todo!()` for `Expr::Return` (interpreter.rs line 264). -/
  | returnUnimplemented
  /-- The error kind the spec (section 7) prescribes for arity failures
  (`ArityMismatch{expected, got}`); the interpreter never constructs it. -/
  | arityMismatch (expected got : Nat)
  deriving DecidableEq

/-- Whether a runtime failure is the spec's explicit argument-count
(arity-mismatch) error kind. -/
def RuntimeErr.isArityMismatch : RuntimeErr → Bool
  | .arityMismatch _ _ => true
  | _ => false

/-- Display for Token. Modelled from the spec: the Display impl lives in the
external lexer; only the identifier arm (an identifier displays as its name)
is relied on by evaluation, via `SetVal` binding `lhs.to_string()` where the
parser guarantees `lhs` is an identifier token (spec section 4.2: bind
`name`). -/
def token_display : Token → String
  | .num n => toString n
  | .string s => s
  | .bool b => toString b
  | .identifier name => name
  | .operator op => op
  | .type name => name
  | .setVal => ":="
  | .lparen => "("
  | .rparen => ")"
  | .lbrace => "\x7b"
  | .rbrace => "\x7d"
  | .comma => ","
  | .semicolon => ";"
  | .ret => "return"
  | .returnType => "->"
  | .func => "func"
  | .error => "<error>"

/-- Display for Expr, parser.rs lines 73-94.  The FnCall and FnDef arms use
Rust `{:?}` debug formatting of subtrees, which is approximated by a
placeholder; no evaluation path depends on those arms (the interpreter only
stringifies the identifier-token lhs of an assignment). -/
def expr_display : Expr → String
  | .token t => token_display t
  | .binaryExpr op lhs rhs =>
      expr_display lhs ++ " " ++ Operator.display op ++ " " ++ expr_display rhs
  | .fnCall name _ => name ++ "(...)"
  | .fnDef name _ _ returnType =>
      "func " ++ name ++ "(...) <body> -> " ++ returnType
  | .ret inner => "return " ++ expr_display inner

/-- Terminator rule, parser.rs lines 226-234: when `sc_check` holds, the next
token must be a semicolon, which is consumed; otherwise panic
"Expected semicolon". -/
def check_semicolon (sc_check : Bool)
    (r : Except ParseErr (Expr × List Token)) :
    Except ParseErr (Expr × List Token) :=
  if sc_check then
    match r with
    | .error e => .error e
    | .ok (expr, Token.semicolon :: rest) => .ok (expr, rest)
    | .ok (_, _) => .error .expectedSemicolon
  else r

mutual

/-- Parser::parse_expr, parser.rs lines 115-235.  The first token is consumed
(`tokens.next()`); dispatch follows the Rust match arms.  The `func` arm sets
`sc_check` to false, so no terminator is demanded after a definition. -/
def parse_expr (fuel : Nat) (tokens : List Token) (sc_check : Bool) :
    Except ParseErr (Expr × List Token) :=
  match fuel with
  | 0 => .error .outOfFuel
  | fuel + 1 =>
    match tokens with
    | Token.func :: rest => parse_fn_def fuel rest
    | Token.ret :: rest =>
        check_semicolon sc_check
          (match parse_expr fuel rest false with
           | .error e => .error e
           | .ok (expr, t) => .ok (Expr.ret expr, t))
    | Token.identifier ident :: rest =>
        check_semicolon sc_check
          (match rest with
           | Token.setVal :: rest2 =>
               (match parse_expr fuel rest2 false with
                | .error e => .error e
                | .ok (expr, t) =>
                    .ok (.binaryExpr .setVal (.token (.identifier ident)) expr, t))
           | Token.lparen :: rest2 => parse_fn_call fuel ident rest2
           | Token.operator op :: rest2 =>
               (match parse_expr fuel rest2 false with
                | .error e => .error e
                | .ok (expr, t) =>
                    match Operator.from_str op with
                    | some o =>
                        .ok (.binaryExpr o (.token (.identifier ident)) expr, t)
                    | none => .error .unknownOperator)
           | _ => .ok (.token (.identifier ident), rest))
    | Token.num n :: rest =>
        check_semicolon sc_check
          (match rest with
           | Token.operator op :: rest2 =>
               (match parse_expr fuel rest2 false with
                | .error e => .error e
                | .ok (expr, t) =>
                    if op = "+" then
                      .ok (.binaryExpr .add (.token (.num n)) expr, t)
                    else if op = "-" then
                      .ok (.binaryExpr .sub (.token (.num n)) expr, t)
                    else if op = "*" then
                      .ok (.binaryExpr .mul (.token (.num n)) expr, t)
                    else if op = "/" then
                      .ok (.binaryExpr .div (.token (.num n)) expr, t)
                    else if op = "=" then
                      .ok (.binaryExpr .eq (.token (.num n)) expr, t)
                    else if op = "!=" then
                      .ok (.binaryExpr .neq (.token (.num n)) expr, t)
                    else .error .expectedOperator)
           | _ => .ok (.token (.num n), rest))
    | Token.bool b :: rest =>
        check_semicolon sc_check (.ok (.token (.bool b), rest))
    | Token.string s :: rest =>
        check_semicolon sc_check (.ok (.token (.string s), rest))
    | [] => check_semicolon sc_check (.ok (.token .error, []))
    | _ :: rest => check_semicolon sc_check (.ok (.token .error, rest))

/-- Parser::parse_fn_def, parser.rs lines 237-304 (the `func` keyword has
already been consumed by `parse_expr`). -/
def parse_fn_def (fuel : Nat) (tokens : List Token) :
    Except ParseErr (Expr × List Token) :=
  match fuel with
  | 0 => .error .outOfFuel
  | fuel + 1 =>
    match tokens with
    | Token.identifier ident :: Token.lparen :: rest =>
        (match
           (match rest with
            | Token.rparen :: rest2 => Except.ok (([], rest2) : List ((Nat × String) × Expr) × List Token)
            | _ => parse_fn_params fuel 0 rest)
         with
         | .error e => .error e
         | .ok (vals, rest2) =>
             match rest2 with
             | Token.returnType :: Token.type t :: Token.lbrace :: rest3 =>
                 (match handle_func_block fuel rest3 with
                  | .error e => .error e
                  | .ok (body, rest4) =>
                      .ok (.fnDef ident vals body t, rest4))
             | Token.returnType :: Token.type _ :: _ => .error .expectedBrace
             | Token.returnType :: _ => .error .expectedType
             | Token.lbrace :: rest3 =>
                 (match handle_func_block fuel rest3 with
                  | .error e => .error e
                  | .ok (body, rest4) =>
                      .ok (.fnDef ident vals body ("_none"), rest4))
             | _ => .error .expectedReturnOrBrace)
    | Token.identifier _ :: _ => .error .expectedLParen
    | _ => .error .expectedIdentifier

/-- The parameter-list loop of parse_fn_def, parser.rs lines 248-274: repeat
(type, identifier) pairs, inserting each at its zero-based index, until a
closing parenthesis; a comma continues with the next index. -/
def parse_fn_params (fuel : Nat) (idx : Nat) (tokens : List Token) :
    Except ParseErr (List ((Nat × String) × Expr) × List Token) :=
  match fuel with
  | 0 => .error .outOfFuel
  | fuel + 1 =>
    match tokens with
    | Token.type t :: Token.identifier ident :: rest =>
        (match rest with
         | Token.comma :: rest2 =>
             (match parse_fn_params fuel (idx + 1) rest2 with
              | .error e => .error e
              | .ok (vals, rest3) =>
                  .ok (((idx, ident), Expr.token (Token.type t)) :: vals, rest3))
         | Token.rparen :: rest2 =>
             .ok ([((idx, ident), Expr.token (Token.type t))], rest2)
         | _ => .error .expectedCommaOrRParen)
    | Token.type _ :: _ => .error .expectedIdentifier
    | _ => .error .expectedType

/-- Parser::handle_func_block, parser.rs lines 306-322: parse one
terminator-requiring statement, then either consume the closing brace and
return, or continue with the next statement. -/
def handle_func_block (fuel : Nat) (tokens : List Token) :
    Except ParseErr (List Expr × List Token) :=
  match fuel with
  | 0 => .error .outOfFuel
  | fuel + 1 =>
    match parse_expr fuel tokens true with
    | .error e => .error e
    | .ok (expr, t) =>
        match t with
        | Token.rbrace :: rest => .ok ([expr], rest)
        | _ =>
            match handle_func_block fuel t with
            | .error e => .error e
            | .ok (exprs, rest) => .ok (expr :: exprs, rest)

/-- Parser::parse_fn_call, parser.rs lines 324-344 (the identifier and the
opening parenthesis have already been consumed). -/
def parse_fn_call (fuel : Nat) (ident : String) (tokens : List Token) :
    Except ParseErr (Expr × List Token) :=
  match fuel with
  | 0 => .error .outOfFuel
  | fuel + 1 =>
    match tokens with
    | Token.rparen :: rest => .ok (.fnCall ident [], rest)
    | _ =>
        match parse_fn_args fuel tokens with
        | .error e => .error e
        | .ok (args, rest) => .ok (.fnCall ident args, rest)

/-- The argument loop of parse_fn_call: non-terminator expressions separated
by commas until a closing parenthesis. -/
def parse_fn_args (fuel : Nat) (tokens : List Token) :
    Except ParseErr (List Expr × List Token) :=
  match fuel with
  | 0 => .error .outOfFuel
  | fuel + 1 =>
    match parse_expr fuel tokens false with
    | .error e => .error e
    | .ok (arg, t) =>
        match t with
        | Token.comma :: rest =>
            (match parse_fn_args fuel rest with
             | .error e => .error e
             | .ok (args, rest2) => .ok (arg :: args, rest2))
        | Token.rparen :: rest => .ok ([arg], rest)
        | _ => .error .expectCommaOrRParenInCall

end

/-- The statement loop of Parser::parse, parser.rs lines 101-113: invoke the
statement parser (with the terminator required) until the stream is
exhausted. -/
def parse_stmts (fuel : Nat) (tokens : List Token) :
    Except ParseErr (List Expr) :=
  match fuel with
  | 0 => .error .outOfFuel
  | fuel + 1 =>
    match tokens with
    | [] => .ok []
    | _ =>
        match parse_expr fuel tokens true with
        | .error e => .error e
        | .ok (expr, rest) =>
            match parse_stmts fuel rest with
            | .error e => .error e
            | .ok exprs => .ok (expr :: exprs)

/-- Parser::parse.  The fuel bound exceeds any recursion depth the token
stream can drive (every nested call in parser.rs consumes at least one
token). -/
def Parser.parse (tokens : List Token) : Except ParseErr (List Expr) :=
  parse_stmts (2 * tokens.length + 8) tokens

/-- The external builtin registry's dispatch routine
(`builtins::call_builtin(name, passed_args, return_type)`); builtins.rs is
outside the repository core, so the interpreter model is parameterized by
it. -/
abbrev BuiltinImpl := String → List Value → Value → Except RuntimeErr Value

/-- get_valuetype_from, interpreter.rs lines 121-129. -/
def get_valuetype_from (name : String) : Except RuntimeErr ValueType :=
  if name = "bool" then .ok .bool
  else if name = "int" then .ok .int
  else if name = "string" then .ok .string
  else if name = "_none" then .ok .nothing
  else .error (.invalidTypeName name)

/-- The parameter-binding loop in call_fn, interpreter.rs lines 108-110:
`new_scope.insert(name.clone(), passed_args[*index])` for every declared
parameter; an index at or past the argument count is a Rust
index-out-of-bounds panic. -/
def insert_passed_args (args : List ((Nat × String) × ValueType))
    (passed_args : List Value) (new_scope : Scope) :
    Except RuntimeErr Scope :=
  match args with
  | [] => .ok new_scope
  | ((index, name), _) :: rest =>
      match passed_args[index]? with
      | some v => insert_passed_args rest passed_args (scope_insert new_scope name v)
      | none => .error .indexOutOfBounds

/-- call_fn, interpreter.rs lines 94-119.  For a user function the clone of
the caller scope is extended with the positional arguments and then the
function returns `Value::Nothing` without evaluating the body. -/
def call_fn (B : BuiltinImpl) (name : String) (passed_args : List Value)
    (scope : Scope) : Except RuntimeErr Value :=
  match scope_lookup scope name with
  | some (Value.fn (FnType.builtin (BuiltinFn.mk bname returnType))) =>
      B bname passed_args returnType
  | some (Value.fn (FnType.user u)) =>
      (match insert_passed_args u.args passed_args scope with
       | .error e => .error e
       | .ok _new_scope => .ok Value.nothing)
  | some _ => .error .notAFunction
  | none => .error (.undefinedFunction name)

/-- The argument-map resolution inside the FnDef arm of interpret_expr,
interpreter.rs lines 248-257: every annotation expression must be a type
token (otherwise `unreachable!`), resolved through get_valuetype_from. -/
def resolve_fn_args (args : List ((Nat × String) × Expr)) :
    Except RuntimeErr (List ((Nat × String) × ValueType)) :=
  match args with
  | [] => .ok []
  | ((i, n), Expr.token (Token.type tname)) :: rest =>
      (match get_valuetype_from tname with
       | .error e => .error e
       | .ok vt =>
           match resolve_fn_args rest with
           | .error e => .error e
           | .ok tail => .ok (((i, n), vt) :: tail))
  | _ :: _ => .error .notATypeToken

/-- The least `i64` value, `-(2^63)`. -/
def i64_min : Int := -(2 ^ 63)

/-- Two's-complement reduction of an integer into the i64 range
`[-(2^63), 2^63)`: the value Rust `i64` addition, subtraction and
multiplication compute when the exact result overflows (release builds
wrap; debug builds panic there, and the wrapped value is the one deployed
builds produce).  For an in-range exact result it is the identity. -/
def wrap64 (x : Int) : Int := (x + 2 ^ 63) % 2 ^ 64 - 2 ^ 63

mutual

/-- interpret_expr, interpreter.rs lines 131-266, as explicit state passing
over the scope (the Rust signature mutates `&mut HashMap`). -/
def interpret_expr (B : BuiltinImpl) (expr : Expr) (scope : Scope) :
    Except RuntimeErr (Value × Scope) :=
  match expr with
  | .binaryExpr .setVal lhs rhs =>
      (match interpret_expr B rhs scope with
       | .error e => .error e
       | .ok (right_side, scope1) =>
           .ok (.nothing, scope_insert scope1 (expr_display lhs) right_side))
  | .binaryExpr .add lhs rhs =>
      (match interpret_expr B lhs scope with
       | .error e => .error e
       | .ok (left_side, scope1) =>
           match interpret_expr B rhs scope1 with
           | .error e => .error e
           | .ok (right_side, scope2) =>
               match left_side, right_side with
               | .int l, .int r => .ok (.int (wrap64 (l + r)), scope2)
               | .string l, .string r => .ok (.string (l ++ r), scope2)
               | _, _ => .error .cannotAdd)
  | .binaryExpr .sub lhs rhs =>
      (match interpret_expr B lhs scope with
       | .error e => .error e
       | .ok (left_side, scope1) =>
           match interpret_expr B rhs scope1 with
           | .error e => .error e
           | .ok (right_side, scope2) =>
               match left_side, right_side with
               | .int l, .int r => .ok (.int (wrap64 (l - r)), scope2)
               | _, _ => .error .cannotSubtract)
  | .binaryExpr .mul lhs rhs =>
      (match interpret_expr B lhs scope with
       | .error e => .error e
       | .ok (left_side, scope1) =>
           match interpret_expr B rhs scope1 with
           | .error e => .error e
           | .ok (right_side, scope2) =>
               match left_side, right_side with
               | .int l, .int r => .ok (.int (wrap64 (l * r)), scope2)
               | _, _ => .error .cannotMultiply)
  | .binaryExpr .div lhs rhs =>
      (match interpret_expr B lhs scope with
       | .error e => .error e
       | .ok (left_side, scope1) =>
           match interpret_expr B rhs scope1 with
           | .error e => .error e
           | .ok (right_side, scope2) =>
               match left_side, right_side with
               | .int l, .int r =>
                   if r = 0 then .error .divisionByZero
                   else if l = i64_min ∧ r = -1 then .error .divisionOverflow
                   else .ok (.int (Int.tdiv l r), scope2)
               | _, _ => .error .cannotDivide)
  | .binaryExpr .eq lhs rhs =>
      (match interpret_expr B lhs scope with
       | .error e => .error e
       | .ok (left_side, scope1) =>
           match interpret_expr B rhs scope1 with
           | .error e => .error e
           | .ok (right_side, scope2) =>
               match left_side, right_side with
               | .int l, .int r => .ok (.bool (l = r), scope2)
               | .string l, .string r => .ok (.bool (l = r), scope2)
               | .bool l, .bool r => .ok (.bool (l = r), scope2)
               | _, _ => .error .cannotCompare)
  | .binaryExpr .neq lhs rhs =>
      (match interpret_expr B lhs scope with
       | .error e => .error e
       | .ok (left_side, scope1) =>
           match interpret_expr B rhs scope1 with
           | .error e => .error e
           | .ok (right_side, scope2) =>
               match left_side, right_side with
               | .int l, .int r => .ok (.bool (decide (l ≠ r)), scope2)
               | .string l, .string r => .ok (.bool (decide (l ≠ r)), scope2)
               | .bool l, .bool r => .ok (.bool (decide (l ≠ r)), scope2)
               | _, _ => .error .cannotCompare)
  | .token t =>
      (match t with
       | .num n => .ok (.int n, scope)
       | .string s => .ok (.string s, scope)
       | .bool b => .ok (.bool b, scope)
       | .identifier x =>
           (match scope_lookup scope x with
            | some v => .ok (v, scope)
            | none => .error (.undefinedVariable x))
       | _ => .ok (.nothing, scope))
  | .fnCall name args =>
      (match interpret_args B args scope with
       | .error e => .error e
       | .ok (args_vec, scope1) =>
           match call_fn B name args_vec scope1 with
           | .error e => .error e
           | .ok v => .ok (v, scope1))
  | .fnDef name args body returnType =>
      (match resolve_fn_args args with
       | .error e => .error e
       | .ok rargs =>
           match get_valuetype_from returnType with
           | .error e => .error e
           | .ok rt =>
               .ok (.nothing,
                 scope_insert scope name
                   (.fn (.user ⟨name, rargs, body, rt⟩))))
  | .ret _ => .error .returnUnimplemented

/-- The argument-evaluation loop of the FnCall arm, interpreter.rs lines
233-236: evaluate each argument left to right in the current scope. -/
def interpret_args (B : BuiltinImpl) (es : List Expr) (scope : Scope) :
    Except RuntimeErr (List Value × Scope) :=
  match es with
  | [] => .ok ([], scope)
  | e :: rest =>
      (match interpret_expr B e scope with
       | .error e' => .error e'
       | .ok (v, scope1) =>
           match interpret_args B rest scope1 with
           | .error e' => .error e'
           | .ok (vs, scope2) => .ok (v :: vs, scope2))

end

/-- Interpreter::run, interpreter.rs lines 279-283, additionally recording
the value each top-level statement produced (run() computes and discards
them). -/
def interpret_stmts (B : BuiltinImpl) (exprs : List Expr) (scope : Scope) :
    Except RuntimeErr (List Value × Scope) :=
  match exprs with
  | [] => .ok ([], scope)
  | e :: rest =>
      (match interpret_expr B e scope with
       | .error e' => .error e'
       | .ok (v, scope1) =>
           match interpret_stmts B rest scope1 with
           | .error e' => .error e'
           | .ok (vs, scope2) => .ok (v :: vs, scope2))

/-- The values of the top-level statements of a run. -/
def run_values (B : BuiltinImpl) (exprs : List Expr) (scope : Scope) :
    Except RuntimeErr (List Value) :=
  match interpret_stmts B exprs scope with
  | .error e => .error e
  | .ok (vs, _) => .ok vs

/-- Parse a token stream and run the resulting program from a given initial
scope (Interpreter::new pre-populates the top-level scope through the
external registry; the theorems instantiate the initial scope directly). -/
def parse_and_run (B : BuiltinImpl) (tokens : List Token) (scope : Scope) :
    Except ParseErr (Except RuntimeErr (List Value)) :=
  match Parser.parse tokens with
  | .error e => .error e
  | .ok exprs => .ok (run_values B exprs scope)

/-- An arbitrary builtin dispatcher used to instantiate theorems whose
programs never invoke a builtin. -/
def no_builtins : BuiltinImpl := fun _ _ _ => .ok Value.nothing

end MarsPulsar

namespace MarsPulsar

/-- Token stream of
`func add(int a, int b) -> int \x7b return a + b; \x7d add(2,3);`. -/
def add_call_tokens : List Token :=
  [.func, .identifier ("add"), .lparen, .type ("int"), .identifier ("a"),
   .comma, .type ("int"), .identifier ("b"), .rparen, .returnType,
   .type ("int"), .lbrace, .ret, .identifier ("a"), .operator ("+"),
   .identifier ("b"), .semicolon, .rbrace,
   .identifier ("add"), .lparen, .num 2, .comma, .num 3, .rparen, .semicolon]

/-- C1: the spec's required contract is that a call to a user-defined
function evaluates the body statements in the fresh call scope and yields
the first Return's value, so `add(2,3)` should be `Int(5)`; the code instead
returns `Value::Nothing` from `call_fn` without ever evaluating the body
(and `Expr::Return` evaluation is `todo!()`).  This theorem evaluates the
code at the spec's own example: both top-level statements produce `Nothing`,
and `Nothing` is not `Int(5)`. -/
theorem c1_user_call_returns_nothing :
    (∀ B : BuiltinImpl,
      parse_and_run B add_call_tokens []
        = .ok (.ok [Value.nothing, Value.nothing]))
    ∧ Value.nothing ≠ Value.int 5 :=
  ⟨fun _ => rfl, fun h => Value.noConfusion h⟩

/-- Token stream of the same definition of `add` followed by the one-argument
call `add(2);`. -/
def add_call_one_arg_tokens : List Token :=
  [.func, .identifier ("add"), .lparen, .type ("int"), .identifier ("a"),
   .comma, .type ("int"), .identifier ("b"), .rparen, .returnType,
   .type ("int"), .lbrace, .ret, .identifier ("a"), .operator ("+"),
   .identifier ("b"), .semicolon, .rbrace,
   .identifier ("add"), .lparen, .num 2, .rparen, .semicolon]

/-- C2, counterexample to the claim as stated: calling the two-parameter
function `add` with one argument fails with the Rust index-out-of-bounds
panic raised by `passed_args[*index]`, which is not the explicit
argument-count (arity-mismatch) error kind the claim names. -/
theorem c2_one_arg_call_index_panic :
    parse_and_run no_builtins add_call_one_arg_tokens []
      = .ok (.error .indexOutOfBounds)
    ∧ RuntimeErr.isArityMismatch .indexOutOfBounds = false :=
  ⟨rfl, rfl⟩

/-- If some declared parameter's positional index is at or past the number of
passed arguments, the parameter-binding loop of call_fn hits the
index-out-of-bounds panic. -/
theorem insert_passed_args_oob :
    ∀ (args : List ((Nat × String) × ValueType)) (passed_args : List Value)
      (scope : Scope),
    (∃ p ∈ args, passed_args.length ≤ p.1.1) →
    insert_passed_args args passed_args scope = .error .indexOutOfBounds := by
  intro args
  induction args with
  | nil => intro pa s h; simp at h
  | cons a rest ih =>
    intro pa s h
    obtain ⟨⟨i, nm⟩, ty⟩ := a
    obtain ⟨p, hp, hle⟩ := h
    rcases List.mem_cons.mp hp with hhead | hmem
    · subst hhead
      have hnone : pa[i]? = none := by
        apply List.getElem?_eq_none
        simpa using hle
      simp [insert_passed_args, hnone]
    · cases hget : pa[i]? with
      | none => simp [insert_passed_args, hget]
      | some v =>
          simp [insert_passed_args, hget]
          exact ih pa _ ⟨p, hmem, hle⟩

/-- C2 (amended): a call to a user-defined function bound in scope whose
evaluated arguments are too few for some declared parameter index does fail —
it is never silently tolerated — but the failure is the Rust
index-out-of-bounds panic from `passed_args[*index]`, not an explicit
argument-count (arity-mismatch) error. -/
theorem c2_arity_underflow_fails_with_index_panic :
    ∀ (B : BuiltinImpl) (name : String) (u : UserFn) (passed_args : List Value)
      (scope : Scope),
    scope_lookup scope name = some (.fn (.user u)) →
    (∃ p ∈ u.args, passed_args.length ≤ p.1.1) →
    call_fn B name passed_args scope = .error .indexOutOfBounds := by
  intro B name u pa scope hlook hex
  simp [call_fn, hlook, insert_passed_args_oob u.args pa scope hex]

/-- The user-function value that interpreting the definition of `add`
produces. -/
def add_user_fn : UserFn :=
  ⟨"add", [((0, "a"), .int), ((1, "b"), .int)],
   [.ret (.binaryExpr .add (.token (.identifier ("a")))
       (.token (.identifier ("b"))))], .int⟩

/-- The scope after the definition of `add` has been interpreted. -/
def add_scope : Scope := [("add", .fn (.user add_user_fn))]

/-- C2, witness: the two-parameter `add` called with the single argument
`Int(2)` satisfies the amended theorem's hypotheses and fails with the
index-out-of-bounds panic. -/
theorem c2_arity_underflow_witness :
    scope_lookup add_scope ("add") = some (.fn (.user add_user_fn))
    ∧ (∃ p ∈ add_user_fn.args, ([Value.int 2] : List Value).length ≤ p.1.1)
    ∧ call_fn no_builtins ("add") [Value.int 2] add_scope
        = .error .indexOutOfBounds :=
  ⟨rfl, ⟨((1, ("b")), ValueType.int), by decide, by decide⟩,
   c2_arity_underflow_fails_with_index_panic no_builtins ("add") add_user_fn
     [Value.int 2] add_scope rfl
     ⟨((1, ("b")), ValueType.int), by decide, by decide⟩⟩

/-- C3: the claim says an integer literal followed by the operator symbol
"==" parses into the Eq variant and `3 == 3;` evaluates to `Bool(true)`.
The integer-literal arm of parse_expr instead matches the single-character
string "=" for Eq (parser.rs line 197), although `Operator::from_str` in the
same file — and the spec's Operator data model — map "==" to Eq and reject
"="; so `3 == 3;` aborts parsing with the "Expected operator" panic, while
the other five operator symbols behave as claimed.  This theorem evaluates
the parser at the failing input and exhibits the internal inconsistency. -/
theorem c3_int_eq_chain_is_code_bug :
    Parser.parse [.num 3, .operator ("=="), .num 3, .semicolon]
      = .error .expectedOperator
    ∧ Operator.from_str ("==") = some .eq
    ∧ Operator.from_str ("=") = none
    ∧ parse_and_run no_builtins [.num 3, .operator ("="), .num 3, .semicolon] []
        = .ok (.ok [.bool true]) :=
  ⟨rfl, rfl, rfl, rfl⟩

/-- C4: the grammar has no operator precedence: after an integer literal the
parser consumes the operator and takes the entire parsed remainder as the
right-hand side, so `n - m - k;` parses as `n - (m - k)` for all literals,
and `2 - 3 - 4;` evaluates to `Int(3)`, not `Int(-5)`. -/
theorem c4_rightward_grouping :
    (∀ (n m k : Int),
      Parser.parse
          [.num n, .operator ("-"), .num m, .operator ("-"), .num k, .semicolon]
        = .ok [.binaryExpr .sub (.token (.num n))
            (.binaryExpr .sub (.token (.num m)) (.token (.num k)))])
    ∧ parse_and_run no_builtins
        [.num 2, .operator ("-"), .num 3, .operator ("-"), .num 4, .semicolon] []
        = .ok (.ok [.int 3])
    ∧ Value.int 3 ≠ Value.int (-5) :=
  ⟨fun _ _ _ => rfl, rfl,
   by intro h; injection h with h'; exact absurd h' (by decide)⟩

/-- Token stream of `x := 5; x; x := 6; x;`. -/
def assign_lookup_tokens : List Token :=
  [.identifier ("x"), .setVal, .num 5, .semicolon,
   .identifier ("x"), .semicolon,
   .identifier ("x"), .setVal, .num 6, .semicolon,
   .identifier ("x"), .semicolon]

/-- C5: evaluating `BinaryExpr{SetVal, name, rhs}` evaluates `rhs`, binds the
name to the resulting value in the scope, and returns `Nothing`, and a
subsequent lookup of the identifier yields the value just bound; concretely,
`x := 5; x; x := 6; x;` produces `Nothing, Int(5), Nothing, Int(6)`
(last write wins). -/
theorem c5_setval_binds_and_returns_nothing :
    (∀ (B : BuiltinImpl) (x : String) (rhs : Expr) (v : Value)
       (scope scope1 : Scope),
       interpret_expr B rhs scope = .ok (v, scope1) →
       interpret_expr B (.binaryExpr .setVal (.token (.identifier x)) rhs) scope
           = .ok (.nothing, scope_insert scope1 x v)
       ∧ scope_lookup (scope_insert scope1 x v) x = some v)
    ∧ parse_and_run no_builtins assign_lookup_tokens []
        = .ok (.ok [.nothing, .int 5, .nothing, .int 6]) := by
  constructor
  · intro B x rhs v scope scope1 h
    constructor
    · simp [interpret_expr, h, expr_display, token_display]
    · simp [scope_lookup, scope_insert]
  · rfl

/-- C5, witness: assigning the literal `5` to `x` in the empty scope. -/
theorem c5_setval_witness :
    interpret_expr no_builtins (.token (.num 5)) [] = .ok (.int 5, ([] : Scope))
    ∧ (interpret_expr no_builtins
          (.binaryExpr .setVal (.token (.identifier ("x"))) (.token (.num 5))) []
          = .ok (.nothing, scope_insert [] ("x") (.int 5))
       ∧ scope_lookup (scope_insert [] ("x") (.int 5)) ("x")
          = some (.int 5)) :=
  ⟨rfl, c5_setval_binds_and_returns_nothing.left no_builtins ("x")
     (.token (.num 5)) (.int 5) [] [] rfl⟩

/-- C6, counterexample to the claim as stated: the statement
`"a" + "b";` does not parse at all — a string literal is always a bare leaf,
so the parser demands a semicolon right after `"a"` and aborts with the
"Expected semicolon" panic; it therefore cannot evaluate to `String("ab")`. -/
theorem c6_string_plus_literal_fails_to_parse :
    Parser.parse [.string ("a"), .operator ("+"), .string ("b"), .semicolon]
      = .error .expectedSemicolon := rfl

/-- Token stream of `x := "a"; y := "b"; x + y;`. -/
def concat_via_identifiers_tokens : List Token :=
  [.identifier ("x"), .setVal, .string ("a"), .semicolon,
   .identifier ("y"), .setVal, .string ("b"), .semicolon,
   .identifier ("x"), .operator ("+"), .identifier ("y"), .semicolon]

/-- C6 (amended): a statement made of a string literal, "+", and a string
literal fails to parse with "Expected semicolon" (string literals are bare
leaves in this grammar); the Add evaluation rule does concatenate strings
when such a node is built through an identifier left-hand side, so
`x := "a"; y := "b"; x + y;` evaluates its last statement to
`String("ab")`. -/
theorem c6_amended_concat_via_identifiers :
    Parser.parse [.string ("a"), .operator ("+"), .string ("b"), .semicolon]
      = .error .expectedSemicolon
    ∧ parse_and_run no_builtins concat_via_identifiers_tokens []
        = .ok (.ok [.nothing, .nothing, .string ("ab")]) :=
  ⟨rfl, rfl⟩

/-- C7, counterexample to the claim as stated: Int plus Int does not always
produce "their Int sum" — the source adds `i64`s, so at the operands
`(i64::MAX, 1)` the program produces the wrapped value `i64::MIN`
(release-build semantics; debug builds panic), not the exact sum `2^63`. -/
theorem c7_i64_max_plus_one_wraps :
    interpret_expr no_builtins
        (.binaryExpr .add (.token (.num (2 ^ 63 - 1))) (.token (.num 1))) []
      = .ok (.int (-(2 ^ 63)), ([] : Scope))
    ∧ Value.int (-(2 ^ 63)) ≠ Value.int ((2 ^ 63 - 1) + 1) :=
  ⟨rfl, by intro h; injection h with h'; exact absurd h' (by decide)⟩

/-- C7 (amended): for every evaluated pair of operands of an Add expression,
Int plus Int produces their sum reduced into the i64 range by
two's-complement wrapping — which equals their exact Int sum whenever that
sum is representable in i64 — String plus String produces the
concatenation, and every other pairing fails with the
"Cannot add non-numeric values" type error. -/
theorem c7_add_pairings_wrapping :
    (∀ (B : BuiltinImpl) (lhs rhs : Expr) (scope scope1 scope2 : Scope)
       (v1 v2 : Value),
     interpret_expr B lhs scope = .ok (v1, scope1) →
     interpret_expr B rhs scope1 = .ok (v2, scope2) →
     interpret_expr B (.binaryExpr .add lhs rhs) scope =
       (match v1, v2 with
        | .int a, .int b => .ok (.int (wrap64 (a + b)), scope2)
        | .string a, .string b => .ok (.string (a ++ b), scope2)
        | _, _ => .error .cannotAdd))
    ∧ (∀ (x : Int), i64_min ≤ x → x < 2 ^ 63 → wrap64 x = x) := by
  constructor
  · intro B lhs rhs scope scope1 scope2 v1 v2 h1 h2
    simp [interpret_expr, h1, h2]
  · intro x h1 h2
    have hpow : ((2 : Int) ^ 63) = 9223372036854775808 := by norm_num
    have hmin : i64_min = -9223372036854775808 := by
      simp [i64_min, hpow]
    rw [wrap64, hpow] at *
    rw [hmin] at h1
    rw [Int.emod_eq_of_lt (by omega) (by norm_num; omega)]
    omega

/-- C7, witness: `2 + 3` in the empty scope evaluates to `Int(5)`, and the
exact sum `5` is in the i64 range, where wrapping is the identity. -/
theorem c7_add_pairings_witness :
    (interpret_expr no_builtins (.token (.num 2)) [] = .ok (.int 2, ([] : Scope))
     ∧ interpret_expr no_builtins (.token (.num 3)) [] = .ok (.int 3, ([] : Scope))
     ∧ interpret_expr no_builtins
         (.binaryExpr .add (.token (.num 2)) (.token (.num 3))) []
         = .ok (.int 5, ([] : Scope)))
    ∧ (i64_min ≤ (5 : Int) ∧ (5 : Int) < 2 ^ 63 ∧ wrap64 5 = 5) :=
  ⟨⟨rfl, rfl,
    c7_add_pairings_wrapping.left no_builtins (.token (.num 2))
      (.token (.num 3)) [] [] [] (.int 2) (.int 3) rfl rfl⟩,
   by decide, by decide,
   c7_add_pairings_wrapping.right 5 (by decide) (by decide)⟩

/-- C8, counterexample to the claim as stated: Div does not fail "exactly
when the divisor is zero" — at `i64::MIN / -1` the divisor is nonzero, yet
the source's `i64` division panics with "attempt to divide with overflow"
(in every Rust build mode) instead of producing a truncating quotient. -/
theorem c8_min_div_neg_one_panics :
    interpret_expr no_builtins
        (.binaryExpr .div (.token (.num i64_min)) (.token (.num (-1)))) []
      = .error .divisionOverflow
    ∧ (-1 : Int) ≠ 0 :=
  ⟨rfl, by decide⟩

/-- C8 (amended): a Div whose operands evaluate to Int produces the
truncating-toward-zero integer quotient when the divisor is nonzero and the
operand pair is not `(i64::MIN, -1)`; it fails with the division-by-zero
panic exactly when the divisor is zero, and with the unconditional
division-overflow panic at `i64::MIN / -1` (the one nonzero-divisor
failure). -/
theorem c8_div_truncation_and_failures :
    ∀ (B : BuiltinImpl) (lhs rhs : Expr) (scope scope1 scope2 : Scope)
      (a b : Int),
    interpret_expr B lhs scope = .ok (.int a, scope1) →
    interpret_expr B rhs scope1 = .ok (.int b, scope2) →
    (b = 0 → interpret_expr B (.binaryExpr .div lhs rhs) scope
        = .error .divisionByZero)
    ∧ (a = i64_min → b = -1 → interpret_expr B (.binaryExpr .div lhs rhs) scope
        = .error .divisionOverflow)
    ∧ (b ≠ 0 → ¬(a = i64_min ∧ b = -1) →
        interpret_expr B (.binaryExpr .div lhs rhs) scope
          = .ok (.int (Int.tdiv a b), scope2)) := by
  intro B lhs rhs s s1 s2 a b h1 h2
  refine ⟨?_, ?_, ?_⟩
  · intro hb; subst hb; simp [interpret_expr, h1, h2]
  · intro ha hb; subst ha; subst hb
    norm_num [interpret_expr, h1, h2]
  · intro hb hno; simp [interpret_expr, h1, h2, hb, hno]

/-- C8, witness: `7 / 2` evaluates to `Int(3)` (truncating) and `5 / 0`
fails with the division-by-zero panic. -/
theorem c8_div_witness :
    ((2 : Int) ≠ 0 ∧ ¬((7 : Int) = i64_min ∧ (2 : Int) = -1)
     ∧ interpret_expr no_builtins
         (.binaryExpr .div (.token (.num 7)) (.token (.num 2))) []
         = .ok (.int 3, ([] : Scope)))
    ∧ interpret_expr no_builtins
        (.binaryExpr .div (.token (.num 5)) (.token (.num 0))) []
        = .error .divisionByZero :=
  ⟨⟨by decide, by decide,
    (c8_div_truncation_and_failures no_builtins (.token (.num 7))
       (.token (.num 2)) [] [] [] 7 2 rfl rfl).2.2 (by decide) (by decide)⟩,
   (c8_div_truncation_and_failures no_builtins (.token (.num 5))
      (.token (.num 0)) [] [] [] 5 0 rfl rfl).1 rfl⟩

/-- The token shapes the interpreter's Token arm evaluates to a literal or
looks up: integer, string, and boolean literals and identifiers
(interpreter.rs lines 219-229); every other token falls to the permissive
`_ => Value::Nothing` arm. -/
def Token.is_evaluated_leaf : Token → Bool
  | .num _ => true
  | .string _ => true
  | .bool _ => true
  | .identifier _ => true
  | _ => false

/-- C9: evaluating a Token leaf whose token is not an integer, string, or
boolean literal nor an identifier — including the explicit parse-error
token — returns `Nothing` (leaving the scope unchanged) rather than
failing. -/
theorem c9_other_token_leaf_nothing :
    ∀ (B : BuiltinImpl) (t : Token) (scope : Scope),
    Token.is_evaluated_leaf t = false →
    interpret_expr B (.token t) scope = .ok (.nothing, scope) := by
  intro B t s h
  cases t <;> first
    | rfl
    | exact absurd h (by simp [Token.is_evaluated_leaf])

/-- C9, witness: the explicit parse-error token evaluates to `Nothing`. -/
theorem c9_other_token_leaf_witness :
    Token.is_evaluated_leaf .error = false
    ∧ interpret_expr no_builtins (.token .error) [] = .ok (.nothing, ([] : Scope)) :=
  ⟨rfl, c9_other_token_leaf_nothing no_builtins .error [] rfl⟩

/-- C10, counterexample to the claim as stated: the token sequence
`func f ( ) \x7b \x7d ; \x7d` contains a function definition whose opening
brace is immediately followed by the closing brace, yet parsing succeeds —
the block parser consumes the first closing brace as an error-leaf statement
(terminated by the semicolon) and the second closing brace ends the block,
producing an FnDef whose body is the single error leaf. -/
theorem c10_adjacent_braces_parse_succeeds :
    Parser.parse
        [.func, .identifier ("f"), .lparen, .rparen, .lbrace, .rbrace,
         .semicolon, .rbrace]
      = .ok [.fnDef ("f") [] [.token .error] ("_none")] := rfl

/-- C10 (amended): parsing the exact program `func f() \x7b \x7d` fails with
the "Expected semicolon" panic, and the block parser parses at least one
statement before looking for the closing brace, so no FnDef node with an
empty body is ever produced; however, a longer token sequence whose opening
brace is immediately followed by the closing brace can still parse, the
brace itself being consumed as an error-leaf statement. -/
theorem c10_no_empty_body_fndef :
    Parser.parse [.func, .identifier ("f"), .lparen, .rparen, .lbrace, .rbrace]
      = .error .expectedSemicolon
    ∧ (∀ (fuel : Nat) (tokens : List Token) (exprs : List Expr)
         (rest : List Token),
         handle_func_block fuel tokens = .ok (exprs, rest) → exprs ≠ []) := by
  refine ⟨rfl, ?_⟩
  intro fuel tokens exprs rest h
  cases fuel with
  | zero => exact absurd h (by simp [handle_func_block])
  | succ fuel =>
    unfold handle_func_block at h
    split at h
    · exact absurd h (by simp)
    · split at h
      · simp only [Except.ok.injEq, Prod.mk.injEq] at h
        obtain ⟨rfl, rfl⟩ := h
        simp
      · split at h
        · exact absurd h (by simp)
        · simp only [Except.ok.injEq, Prod.mk.injEq] at h
          obtain ⟨rfl, rfl⟩ := h
          simp

/-- C10, witness: a block containing the single statement `1;` parses to a
one-statement (hence nonempty) body. -/
theorem c10_no_empty_body_witness :
    handle_func_block 2 [.num 1, .semicolon, .rbrace]
      = .ok ([.token (.num 1)], ([] : List Token))
    ∧ ([Expr.token (.num 1)] : List Expr) ≠ [] :=
  ⟨rfl, c10_no_empty_body_fndef.right 2 [.num 1, .semicolon, .rbrace]
     [.token (.num 1)] [] rfl⟩

end MarsPulsar
